import Mathlib

/-!
Shallow embedding of the katamari-style game's core logic — growth by
absorption, collision scanning, collision response, barrier response,
spatial placement, population culling and camera framing — together with
theorems about the embedded functions.

Real-number arithmetic stands in for JavaScript floating point; `NaN` and
infinities are outside the model.  Calls to `Math.random()` are made
explicit as `u` parameters or lists of draws in `[0, 1)`.
-/

open Classical

noncomputable section

/-! ## Vectors -/

/-- Three-component vector, as used by the game for positions and velocities. -/
structure Vec3 where
  x : ℝ
  y : ℝ
  z : ℝ

instance : Sub Vec3 := ⟨fun a b => ⟨a.x - b.x, a.y - b.y, a.z - b.z⟩⟩

/-- Euclidean length of a vector (`THREE.Vector3.length`). -/
def norm3 (v : Vec3) : ℝ := Real.sqrt (v.x ^ 2 + v.y ^ 2 + v.z ^ 2)

/-- Distance between two points (`THREE.Vector3.distanceTo`). -/
def dist3 (a b : Vec3) : ℝ := norm3 (a - b)

/-- Horizontal (x/z-plane) distance between two points, as computed in
`ObjectManager._findNonOverlappingPosition`. -/
def dist2 (a b : Vec3) : ℝ := Real.sqrt ((a.x - b.x) ^ 2 + (a.z - b.z) ^ 2)

/-- Normalization (`THREE.Vector3.normalize`); division by a zero length
yields the zero vector. -/
def normalize3 (v : Vec3) : Vec3 := ⟨v.x / norm3 v, v.y / norm3 v, v.z / norm3 v⟩

/-- Dot product of two vectors. -/
def dot3 (a b : Vec3) : ℝ := a.x * b.x + a.y * b.y + a.z * b.z

/-! ## World bodies -/

/-- Shape kinds spawned by `ObjectManager._createObject`; `other` covers the
default branch of the per-shape dispatches. -/
inductive ShapeKind where
  | box
  | sphere
  | cone
  | cylinder
  | other
deriving DecidableEq

/-- A world body: a collectible object or an invisible barrier box.  Fields
mirror the mesh `userData` (`type`, `size`, `collisionRadius`, `isBarrier`)
plus position and, for barriers, the box half-extents and the yaw rotation
(cosine/sine) of the world transform produced by `lookAt`. -/
structure GameObject where
  shape : ShapeKind
  size : ℝ
  position : Vec3
  collisionRadius : Option ℝ := none
  isBarrier : Bool := false
  halfWidth : ℝ := 0
  halfHeight : ℝ := 0
  halfDepth : ℝ := 0
  rotCos : ℝ := 1
  rotSin : ℝ := 0

/-! ## Growth engine (`helpers.js` and `GameController._handleCollisions`) -/

/-- The function `calculateSphereVolume` from `src/js/util/helpers.js`. -/
def calculateSphereVolume (radius : ℝ) : ℝ := (4 / 3) * Real.pi * radius ^ 3

/-- The function `calculateNewRadius` from `src/js/util/helpers.js`. -/
def calculateNewRadius (currentRadius addedVolume : ℝ) : ℝ :=
  let currentVolume := calculateSphereVolume currentRadius
  let newVolume := currentVolume + addedVolume
  ((3 * newVolume) / (4 * Real.pi)) ^ ((1 : ℝ) / 3)

/-- Per-shape volume of an absorbed body, from the geometry dispatch in
`GameController._handleCollisions`: sphere `(4/3)πs³`, box `s³`, cone
`(1/3)πs²(2s)`, cylinder `πs²(2s)`, anything else `0.5·s³`. -/
def shapeVolume (shape : ShapeKind) (size : ℝ) : ℝ :=
  match shape with
  | .sphere => size ^ 3 * Real.pi * (4 / 3)
  | .box => size ^ 3
  | .cone => (1 / 3) * Real.pi * size ^ 2 * (size * 2)
  | .cylinder => Real.pi * size ^ 2 * (size * 2)
  | .other => size ^ 3 * 0.5

/-- One absorption step of `GameController._handleCollisions`, radius only:
compute the object volume, replace an invalid (`≤ 0`) volume by the default
`1.0`, derive the new radius from summed volumes, and keep the old radius if
the new one is invalid (`≤ 0`, the skip in `_handleCollisions` and the guard
in `growSphere`). -/
def absorbOne (sphereSize : ℝ) (obj : GameObject) : ℝ :=
  let objectVolume0 := shapeVolume obj.shape obj.size
  let objectVolume := if objectVolume0 ≤ 0 then 1 else objectVolume0
  let currentVolume := sphereSize ^ 3 * Real.pi * (4 / 3)
  let newVolume := currentVolume + objectVolume
  let newSize := ((3 * newVolume) / (4 * Real.pi)) ^ ((1 : ℝ) / 3)
  if newSize ≤ 0 then sphereSize else newSize

/-- Radius after absorbing a list of bodies one by one, in order, as the
`forEach` over collisions does. -/
def absorbAll (sphereSize : ℝ) (objs : List GameObject) : ℝ :=
  objs.foldl absorbOne sphereSize

/-- Sum of the per-shape volumes of a list of bodies. -/
def totalShapeVolume (objs : List GameObject) : ℝ :=
  (objs.map fun o => shapeVolume o.shape o.size).sum

/-- The volume actually added by one absorption: the shape volume, or the
default `1.0` when that volume is invalid (the subexpression `objectVolume`
after the safety check in `_handleCollisions`). -/
def effectiveVolume (obj : GameObject) : ℝ :=
  if shapeVolume obj.shape obj.size ≤ 0 then 1 else shapeVolume obj.shape obj.size

/-! ## Collision detection (`Physics.checkCollisions`, barrier-aware revision) -/

/-- Effective collision radius used in the scan: the pre-calculated
`userData.collisionRadius` with JavaScript falsy fallback (`|| size`) to
the nominal size when absent or zero. -/
def collisionRadiusOf (o : GameObject) : ℝ :=
  match o.collisionRadius with
  | some r => if r = 0 then o.size else r
  | none => o.size

/-- The player's position expressed in a barrier's local frame: translate by
the barrier position, rotate back through the yaw angle of `matrixWorld`. -/
def barrierLocalPoint (b : GameObject) (p : Vec3) : Vec3 :=
  let d := p - b.position
  ⟨b.rotCos * d.x - b.rotSin * d.z, d.y, b.rotSin * d.x + b.rotCos * d.z⟩

/-- A point in a barrier's local frame mapped back to world space. -/
def barrierWorldPoint (b : GameObject) (p : Vec3) : Vec3 :=
  ⟨b.rotCos * p.x + b.rotSin * p.z + b.position.x,
   p.y + b.position.y,
   -b.rotSin * p.x + b.rotCos * p.z + b.position.z⟩

/-- Closest point of a barrier box to the player center, in world space:
clamp each local coordinate to the half-extent, then transform back
(`Physics.checkBarrierCollision` / `Physics.handleBarrierCollisions`). -/
def closestBoxPoint (b : GameObject) (playerPos : Vec3) : Vec3 :=
  let lp := barrierLocalPoint b playerPos
  barrierWorldPoint b
    ⟨max (-b.halfWidth) (min b.halfWidth lp.x),
     max (-b.halfHeight) (min b.halfHeight lp.y),
     max (-b.halfDepth) (min b.halfDepth lp.z)⟩

/-- Sphere-versus-oriented-box test of `Physics.checkBarrierCollision`. -/
def checkBarrierCollision (playerPos : Vec3) (b : GameObject) (playerRadius : ℝ) : Prop :=
  dist3 playerPos (closestBoxPoint b playerPos) < playerRadius

/-- Record pushed onto `largerCollisions` for a blocking body. -/
structure LargerCollision where
  object : GameObject
  distance : ℝ
  objectRadius : ℝ
  objectPosition : Vec3

/-- The `largerCollisions` entry built for a blocking body `o`. -/
def mkLargerCollision (playerPosition : Vec3) (o : GameObject) : LargerCollision :=
  ⟨o, dist3 playerPosition o.position, collisionRadiusOf o, o.position⟩

/-- Result of one collision scan: the `collisions` (absorbable),
`largerCollisions` (blocking) and `barrierCollisions` lists. -/
structure CollisionScan where
  absorbable : List GameObject
  larger : List LargerCollision
  barrierHits : List GameObject

/-- The scan loop of `Physics.checkCollisions` (barrier-aware revision):
barriers go through the box test into `barrierCollisions`; any other body
whose center distance is below `playerRadius + objectRadius` is absorbable
when strictly smaller than the player and blocking otherwise. -/
def checkCollisionsList (playerPosition : Vec3) (playerSize : ℝ) :
    List GameObject → CollisionScan
  | [] => ⟨[], [], []⟩
  | o :: rest =>
    let acc := checkCollisionsList playerPosition playerSize rest
    if o.isBarrier then
      if checkBarrierCollision playerPosition o playerSize then
        { acc with barrierHits := o :: acc.barrierHits }
      else acc
    else
      if dist3 playerPosition o.position < playerSize + collisionRadiusOf o then
        if o.size < playerSize then
          { acc with absorbable := o :: acc.absorbable }
        else
          { acc with larger := mkLargerCollision playerPosition o :: acc.larger }
      else acc

/-! ## Collision response (`Physics`) -/

/-- Player position and velocity, the state mutated by the responders. -/
structure PlayerState where
  position : Vec3
  velocity : Vec3

/-- Response to one blocking body (`Physics.handleLargerObjectCollisions`,
static-objects revision): outward push on the velocity with logarithmic
force scaling, capped positional correction, and a vertical bounce for
fast hits against much larger bodies. -/
def handleLargerOne (playerRadius : ℝ) (s : PlayerState) (c : LargerCollision) : PlayerState :=
  let overlap := playerRadius + c.objectRadius - c.distance
  if 0 < overlap then
    let pushDirection := normalize3 (s.position - c.objectPosition)
    let sizeFactor := min (c.object.size / playerRadius) 10
    let pushForceFactor := 0.2 + Real.log (sizeFactor + 1) * 0.1
    let pushForce := overlap * pushForceFactor
    let v1 : Vec3 := ⟨s.velocity.x + pushDirection.x * pushForce, s.velocity.y,
                      s.velocity.z + pushDirection.z * pushForce⟩
    let positionCorrection := min (overlap * 0.5) 0.2
    let p1 : Vec3 := ⟨s.position.x + pushDirection.x * positionCorrection, s.position.y,
                      s.position.z + pushDirection.z * positionCorrection⟩
    let speed := norm3 ⟨v1.x, 0, v1.z⟩
    if 5 < speed ∧ 2 < sizeFactor then
      ⟨p1, ⟨v1.x, v1.y + speed * 0.05, v1.z⟩⟩
    else ⟨p1, v1⟩
  else s

/-- The `forEach` over `largerCollisions`. -/
def handleLargerObjectCollisions (playerRadius : ℝ) (s : PlayerState)
    (cs : List LargerCollision) : PlayerState :=
  cs.foldl (handleLargerOne playerRadius) s

/-- Response to one barrier (`Physics.handleBarrierCollisions` loop body):
push out along the horizontal components of the collision normal with a 1%
overshoot and reflect the horizontal velocity with 30% energy loss when
moving into the barrier.  `playerPos` is the position cloned before the
loop. -/
def handleBarrierOne (playerPos : Vec3) (playerRadius : ℝ) (s : PlayerState)
    (b : GameObject) : PlayerState :=
  let worldClosestPoint := closestBoxPoint b playerPos
  let collisionNormal := normalize3 (playerPos - worldClosestPoint)
  let penetrationDepth := playerRadius - dist3 playerPos worldClosestPoint
  if 0 < penetrationDepth then
    let pos1 : Vec3 := ⟨s.position.x + collisionNormal.x * (penetrationDepth * 1.01),
                        s.position.y,
                        s.position.z + collisionNormal.z * (penetrationDepth * 1.01)⟩
    let currentVelocity : Vec3 := ⟨s.velocity.x, 0, s.velocity.z⟩
    let d := dot3 currentVelocity collisionNormal
    if d < 0 then
      let reflected : Vec3 := ⟨currentVelocity.x - collisionNormal.x * (2 * d),
                               currentVelocity.y - collisionNormal.y * (2 * d),
                               currentVelocity.z - collisionNormal.z * (2 * d)⟩
      ⟨pos1, ⟨reflected.x * 0.7, s.velocity.y, reflected.z * 0.7⟩⟩
    else ⟨pos1, s.velocity⟩
  else s

/-- The `forEach` over `barrierCollisions`; the player position used for the
geometry is cloned once before the loop. -/
def handleBarrierCollisions (playerRadius : ℝ) (s : PlayerState)
    (barriers : List GameObject) : PlayerState :=
  barriers.foldl (handleBarrierOne s.position playerRadius) s

/-! ## Population management (`ObjectManager`) -/

/-- The session configuration `window.GAME_CONFIG`. -/
structure GameConfig where
  initialObjectsCount : ℕ
  maxObjectsCount : ℕ
  mapSize : ℝ
  playableArea : ℝ
  maxObjectSize : ℝ
  respawnObjects : Bool
  maxScreenPercentage : ℝ
  cameraZoomRate : ℝ

/-- The function `randomInRange` from `src/js/util/helpers.js`, with the
`Math.random()` draw `u` made explicit. -/
def randomInRange (lo hi u : ℝ) : ℝ := lo + u * (hi - lo)

/-- Shape-factor table of `_findNonOverlappingPosition`: boxes use factor
0.7, cones and cylinders 0.5, anything else the nominal size itself.  The
same mapping is applied to the candidate and to every existing object. -/
def placementEffectiveRadius (geometryType : ShapeKind) (size : ℝ) : ℝ :=
  match geometryType with
  | .box => size * 0.7
  | .cone => size * 0.5
  | .cylinder => size * 0.5
  | _ => size

/-- Candidate position drawn for one placement attempt: both coordinates
uniform in `[-maxCoord, maxCoord]` (y is fixed up later). -/
def candidatePosition (maxCoord : ℝ) (d : ℝ × ℝ) : Vec3 :=
  ⟨randomInRange (-maxCoord) maxCoord d.1, 0, randomInRange (-maxCoord) maxCoord d.2⟩

/-- Acceptance test of one placement attempt: not too close to the player
(margin 5) and not overlapping any existing object (buffer 0.5), both on
horizontal distance. -/
def validPlacement (playerSize effectiveRadius : ℝ) (playerPos : Option Vec3)
    (objects : List GameObject) (pos : Vec3) : Prop :=
  (∀ pp, playerPos = some pp → ¬ dist2 pos pp < playerSize + effectiveRadius + 5) ∧
  ∀ o ∈ objects,
    ¬ dist2 pos o.position <
        effectiveRadius + placementEffectiveRadius o.shape o.size + 0.5

/-- Rejection-sampling loop of `_findNonOverlappingPosition`: try the draws
in order, return the first accepted candidate. -/
def findPositionAux (playerSize effectiveRadius : ℝ) (playerPos : Option Vec3)
    (objects : List GameObject) (maxCoord : ℝ) : List (ℝ × ℝ) → Option Vec3
  | [] => none
  | d :: rest =>
    let pos := candidatePosition maxCoord d
    if validPlacement playerSize effectiveRadius playerPos objects pos then some pos
    else findPositionAux playerSize effectiveRadius playerPos objects maxCoord rest

/-- The allocator `ObjectManager._findNonOverlappingPosition`: bounded to
`MAX_ATTEMPTS = 50` draws inside `[-maxCoord, maxCoord]²` with
`maxCoord = min(playableArea, mapSize/2 - size)`; `none` is the
placement-failure signal. -/
def findNonOverlappingPosition (cfg : GameConfig) (size : ℝ) (geometryType : ShapeKind)
    (playerSize : ℝ) (playerPos : Option Vec3) (objects : List GameObject)
    (draws : List (ℝ × ℝ)) : Option Vec3 :=
  let maxCoord := min cfg.playableArea (cfg.mapSize / 2 - size)
  findPositionAux playerSize (placementEffectiveRadius geometryType size) playerPos objects
    maxCoord (draws.take 50)

/-- The cull filter `ObjectManager._cullTinyObjects`: a body is removed
exactly when it is smaller than a tenth of the player, below the absolute
minimum 5, and its squared distance from the origin exceeds
`playableArea²`. -/
def cullTinyObjects (cfg : GameConfig) (playerSize : ℝ)
    (objects : List GameObject) : List GameObject :=
  let minRelevantSize := playerSize * 0.1
  let cullDistanceThreshold := cfg.playableArea * cfg.playableArea
  objects.filter fun o =>
    decide (¬ (o.size < minRelevantSize ∧ o.size < 5 ∧
      cullDistanceThreshold < o.position.x ^ 2 + o.position.y ^ 2 + o.position.z ^ 2))

/-- Identifiers of the ten object definitions in `ObjectManager`. -/
inductive ObjectDefId where
  | smallCube
  | smallSphere
  | mediumCube
  | mediumSphere
  | cone
  | cylinder
  | largeCube
  | largeSphere
  | hugeCube
  | hugeSphere
deriving DecidableEq

/-- One entry of `this.objectDefinitions`. -/
structure ObjectDef where
  id : ObjectDefId
  geometryType : ShapeKind
  sizeMin : ℝ
  sizeMax : ℝ

/-- The test `id.includes('small')`. -/
def idIncludesSmall : ObjectDefId → Bool
  | .smallCube => true
  | .smallSphere => true
  | _ => false

/-- The test `id.includes('medium')`. -/
def idIncludesMedium : ObjectDefId → Bool
  | .mediumCube => true
  | .mediumSphere => true
  | _ => false

/-- The test `id.includes('large')`. -/
def idIncludesLarge : ObjectDefId → Bool
  | .largeCube => true
  | .largeSphere => true
  | _ => false

/-- The test `id.includes('huge')`. -/
def idIncludesHuge : ObjectDefId → Bool
  | .hugeCube => true
  | .hugeSphere => true
  | _ => false

/-- The `objectDefinitions` table of `ObjectManager`. -/
def objectDefinitions (cfg : GameConfig) : List ObjectDef :=
  [⟨.smallCube, .box, 0.5, 10⟩,
   ⟨.smallSphere, .sphere, 0.5, 15⟩,
   ⟨.mediumCube, .box, 5, 25⟩,
   ⟨.mediumSphere, .sphere, 5, 30⟩,
   ⟨.cone, .cone, 3, 20⟩,
   ⟨.cylinder, .cylinder, 3, 25⟩,
   ⟨.largeCube, .box, 10, 50⟩,
   ⟨.largeSphere, .sphere, 10, 60⟩,
   ⟨.hugeCube, .box, 30, cfg.maxObjectSize / 2⟩,
   ⟨.hugeSphere, .sphere, 30, cfg.maxObjectSize⟩]

/-- The category `smallObjects` (`sizeRange[1] ≤ 15` and id contains
`small`). -/
def smallObjects (cfg : GameConfig) : List ObjectDef :=
  (objectDefinitions cfg).filter fun d => decide (d.sizeMax ≤ 15) && idIncludesSmall d.id

/-- The category `mediumObjects`. -/
def mediumObjects (cfg : GameConfig) : List ObjectDef :=
  (objectDefinitions cfg).filter fun d =>
    (decide (15 < d.sizeMax) && decide (d.sizeMax ≤ 30)) ||
    (idIncludesMedium d.id || decide (d.id = .cone) || decide (d.id = .cylinder))

/-- The category `largeObjects`. -/
def largeObjects (cfg : GameConfig) : List ObjectDef :=
  (objectDefinitions cfg).filter fun d =>
    decide (30 < d.sizeMax) || idIncludesLarge d.id || idIncludesHuge d.id

/-- Indexing `list[Math.floor(u * list.length)]`; an out-of-range index is
the JavaScript `undefined`. -/
def pickRandom (l : List ObjectDef) (u : ℝ) : Option ObjectDef :=
  l.get? (Int.toNat ⌊u * l.length⌋)

/-- All `Math.random()` draws consumed by one `spawnRandomObject` call (the
color draw has no effect on the modelled state and is omitted). -/
structure SpawnDraw where
  categoryU : ℝ
  defU : ℝ
  fallbackU : ℝ
  sizeU : ℝ
  placement : List (ℝ × ℝ)

/-- Mesh construction in `ObjectManager._createObject`: the object rests on
the ground plane at `y = -0.5` with a per-shape vertical offset. -/
def createObject (type : ShapeKind) (size : ℝ) (position : Vec3) : GameObject :=
  let yOffset : ℝ :=
    match type with
    | .box => size / 2
    | .sphere => size
    | .cone => size
    | .cylinder => size
    | .other => size
  { shape := type, size := size, position := ⟨position.x, -0.5 + yOffset, position.z⟩ }

/-- The function `ObjectManager.spawnRandomObject`: population-cap check,
weighted category selection (60% small / 30% medium / 10% large), square-root
biased sizing for the small category, placement through the allocator. -/
def spawnRandomObject (cfg : GameConfig) (playerSize : ℝ) (playerPos : Option Vec3)
    (objects : List GameObject) (d : SpawnDraw) : Option GameObject :=
  if cfg.maxObjectsCount ≤ objects.length then none
  else
    let small := smallObjects cfg
    let picked : Option ObjectDef :=
      if d.categoryU < 0.6 then pickRandom small d.defU
      else if d.categoryU < 0.9 then pickRandom (mediumObjects cfg) d.defU
      else pickRandom (largeObjects cfg) d.defU
    let objectDef : Option ObjectDef :=
      match picked with
      | some od => some od
      | none => pickRandom (objectDefinitions cfg) d.fallbackU
    match objectDef with
    | none => none
    | some od =>
      let minSize := od.sizeMin
      let maxSize := min od.sizeMax cfg.maxObjectSize
      let size :=
        if od ∈ small then minSize + Real.sqrt d.sizeU * (maxSize - minSize)
        else randomInRange minSize maxSize d.sizeU
      match findNonOverlappingPosition cfg size od.geometryType playerSize playerPos
          objects d.placement with
      | none => none
      | some pos => some (createObject od.geometryType size pos)

/-- The retry loop of `ObjectManager.checkAndSpawnObjects`, with the early
bail-out after 10 fruitless attempts. -/
def spawnLoop (cfg : GameConfig) (playerSize : ℝ) (playerPos : Option Vec3)
    (objectsToSpawn maxSpawnAttempts : ℤ) :
    List SpawnDraw → ℤ → ℤ → List GameObject → List GameObject
  | [], _, _, objs => objs
  | d :: rest, successfulSpawns, totalAttempts, objs =>
    if successfulSpawns < objectsToSpawn ∧ totalAttempts < maxSpawnAttempts then
      match spawnRandomObject cfg playerSize playerPos objs d with
      | some o =>
        if 10 ≤ totalAttempts + 1 ∧ successfulSpawns + 1 = 0 then objs ++ [o]
        else
          spawnLoop cfg playerSize playerPos objectsToSpawn maxSpawnAttempts rest
            (successfulSpawns + 1) (totalAttempts + 1) (objs ++ [o])
      | none =>
        if 10 ≤ totalAttempts + 1 ∧ successfulSpawns = 0 then objs
        else
          spawnLoop cfg playerSize playerPos objectsToSpawn maxSpawnAttempts rest
            successfulSpawns (totalAttempts + 1) objs
    else objs

/-- The function `ObjectManager.checkAndSpawnObjects`: an early return when
the respawn flag is off, otherwise the bounded spawn loop followed by the
cull pass. -/
def checkAndSpawnObjects (cfg : GameConfig) (playerSize : ℝ) (playerPos : Option Vec3)
    (objects : List GameObject) (draws : List SpawnDraw) : List GameObject :=
  if cfg.respawnObjects = false then objects
  else
    let desiredObjectCount : ℤ := min cfg.maxObjectsCount cfg.initialObjectsCount
    let objectsToSpawn : ℤ := desiredObjectCount - objects.length
    let afterSpawn :=
      spawnLoop cfg playerSize playerPos objectsToSpawn (objectsToSpawn * 2) draws 0 0 objects
    cullTinyObjects cfg playerSize afterSpawn

/-! ## Per-tick session model (`GameController._gameLoop`) -/

/-- Whole-game state threaded through a session: the player sphere plus the
object population. -/
structure GameState where
  sphereSize : ℝ
  position : Vec3
  velocity : Vec3
  objects : List GameObject

/-- The removal `ObjectManager.removeObject`: delete the first occurrence
found by identity search. -/
def removeObject : List GameObject → GameObject → List GameObject
  | [], _ => []
  | a :: rest, o => if a = o then rest else a :: removeObject rest o

/-- Full per-object body of the `forEach` in `_handleCollisions`: the radius
update of `absorbOne` plus, on success, the ground clamp of `growSphere` and
the removal of the absorbed body; on an invalid new radius the body is
skipped and the state untouched. -/
def absorbStepOne (st : GameState) (o : GameObject) : GameState :=
  let objectVolume0 := shapeVolume o.shape o.size
  let objectVolume := if objectVolume0 ≤ 0 then 1 else objectVolume0
  let currentVolume := st.sphereSize ^ 3 * Real.pi * (4 / 3)
  let newVolume := currentVolume + objectVolume
  let newSize := ((3 * newVolume) / (4 * Real.pi)) ^ ((1 : ℝ) / 3)
  if newSize ≤ 0 then st
  else
    { st with
      sphereSize := newSize,
      position :=
        if st.position.y < newSize then ⟨st.position.x, newSize, st.position.z⟩
        else st.position,
      objects := removeObject st.objects o }

/-- The integrator `Physics.applyPhysics`: gravity above the ground, ground
clamp with friction 0.95 on the ground, then delta-scaled integration
(the cosmetic rotation is not modelled). -/
def applyPhysics (s : GameState) (delta : ℝ) : GameState :=
  if s.sphereSize < s.position.y then
    let v : Vec3 := ⟨s.velocity.x, s.velocity.y - 9.8 * delta, s.velocity.z⟩
    { s with
      position := ⟨s.position.x + v.x * delta, s.position.y + v.y * delta,
                   s.position.z + v.z * delta⟩,
      velocity := v }
  else
    let v : Vec3 := ⟨s.velocity.x * 0.95, 0, s.velocity.z * 0.95⟩
    { s with
      position := ⟨s.position.x + v.x * delta, s.sphereSize + v.y * delta,
                   s.position.z + v.z * delta⟩,
      velocity := v }

/-- External inputs of one frame: the velocity set by the input phase, the
frame delta, and the random draws consumed by population maintenance. -/
structure TickInput where
  inputVelocity : Vec3
  delta : ℝ
  draws : List SpawnDraw

/-- The collision-response part of `Physics.checkCollisions`: the handlers
mutate the player's velocity and position from the scanned lists. -/
def tickResponse (s : GameState) (scan : CollisionScan) : GameState :=
  let ps2 := handleLargerObjectCollisions s.sphereSize ⟨s.position, s.velocity⟩ scan.larger
  let ps3 := handleBarrierCollisions s.sphereSize ps2 scan.barrierHits
  { s with position := ps3.position, velocity := ps3.velocity }

/-- The `_handleCollisions` call of the game loop, performed only for a
non-empty collision list, followed by population maintenance. -/
def tickAbsorb (cfg : GameConfig) (s : GameState) (absorbable : List GameObject)
    (draws : List SpawnDraw) : GameState :=
  if absorbable = [] then s
  else
    let s4 := absorbable.foldl absorbStepOne s
    { s4 with
      objects := checkAndSpawnObjects cfg s4.sphereSize (some s4.position) s4.objects draws }

/-- One pass of `GameController._gameLoop`: input writes the velocity, the
scan classifies the population, the responders adjust velocity/position,
physics integrates, and absorption plus population maintenance run when
anything collided. -/
def tick (cfg : GameConfig) (s : GameState) (t : TickInput) : GameState :=
  let s1 : GameState := { s with velocity := t.inputVelocity }
  let scan := checkCollisionsList s1.position s1.sphereSize s1.objects
  let s2 := tickResponse s1 scan
  let s3 := applyPhysics s2 t.delta
  tickAbsorb cfg s3 scan.absorbable t.draws

/-- A whole session: fold the per-frame inputs through `tick`. -/
def runSession (cfg : GameConfig) (s : GameState) (ts : List TickInput) : GameState :=
  ts.foldl (tick cfg) s

/-! ## Camera framing (`CameraController.updateCameraForSize`) -/

/-- The camera parameters written by `updateCameraForSize`. -/
structure CameraState where
  fov : ℝ
  distance : ℝ
  height : ℝ

/-- The function `CameraController.updateCameraForSize`: sanitize the size,
compute the base distance from the target screen percentage and the tangent
of half the CURRENT field of view, scale by zoom rate and playable-area
scale, set height to half the distance, and only then recompute and clamp
the field of view from the size.  The JavaScript `||` defaults (30 and 1.5)
apply on zero config values. -/
def updateCameraForSize (cfg : GameConfig) (cam : CameraState) (sphereSize : ℝ) :
    CameraState :=
  let size1 := if sphereSize ≤ 0 then 1 else sphereSize
  let maxScreenPercentage := if cfg.maxScreenPercentage = 0 then 30 else cfg.maxScreenPercentage
  let zoomRate := if cfg.cameraZoomRate = 0 then 1.5 else cfg.cameraZoomRate
  let fovRadians := cam.fov * Real.pi / 180
  let baseDistance := size1 / (maxScreenPercentage / 100) / Real.tan (fovRadians / 2)
  let playableAreaScale := max 1 (cfg.playableArea / 400)
  let distance := baseDistance * zoomRate * playableAreaScale
  let height := distance * 0.5
  let targetFOV := 75 - 5 + size1 * 0.2
  let fov := max 60 (min 100 targetFOV)
  ⟨fov, distance, height⟩

/-! ## Basic lemmas -/

theorem Vec3.sub_def (a b : Vec3) : a - b = ⟨a.x - b.x, a.y - b.y, a.z - b.z⟩ := rfl

lemma rpow_third_cube {b : ℝ} (hb : 0 ≤ b) : (b ^ ((1 : ℝ) / 3)) ^ (3 : ℕ) = b := by
  rw [← Real.rpow_natCast (b ^ ((1 : ℝ) / 3)) 3, ← Real.rpow_mul hb]
  norm_num

lemma rpow_third_self {r : ℝ} (hr : 0 ≤ r) : (r ^ (3 : ℕ)) ^ ((1 : ℝ) / 3) = r := by
  rw [← Real.rpow_natCast r 3, ← Real.rpow_mul hr]
  norm_num

/-- The expression `(3 * ((4/3)πr³ + v)) / (4π)` simplifies to
`r³ + 3v/(4π)`. -/
lemma growth_base_eq (r v : ℝ) :
    (3 * (r ^ 3 * Real.pi * (4 / 3) + v)) / (4 * Real.pi) =
      r ^ 3 + 3 * v / (4 * Real.pi) := by
  have hpi : Real.pi ≠ 0 := Real.pi_ne_zero
  field_simp
  ring

lemma calculateNewRadius_eq_rpow (r v : ℝ) :
    calculateNewRadius r v = (r ^ 3 + 3 * v / (4 * Real.pi)) ^ ((1 : ℝ) / 3) := by
  simp only [calculateNewRadius, calculateSphereVolume]
  rw [show 3 * (4 / 3 * Real.pi * r ^ 3 + v) / (4 * Real.pi)
        = r ^ 3 + 3 * v / (4 * Real.pi) by
      have hpi : Real.pi ≠ 0 := Real.pi_ne_zero
      field_simp
      ring]

lemma effectiveVolume_pos (obj : GameObject) : 0 < effectiveVolume obj := by
  unfold effectiveVolume
  split
  · norm_num
  · next h => exact lt_of_not_ge (fun hle => h (le_of_not_gt (fun hgt => absurd hle (not_le.mpr hgt))))

lemma absorbOne_eq_rpow (r : ℝ) (o : GameObject) :
    absorbOne r o =
      if ((r ^ 3 + 3 * effectiveVolume o / (4 * Real.pi)) ^ ((1 : ℝ) / 3)) ≤ 0 then r
      else (r ^ 3 + 3 * effectiveVolume o / (4 * Real.pi)) ^ ((1 : ℝ) / 3) := by
  simp only [absorbOne, effectiveVolume]
  rw [growth_base_eq]

lemma absorbOne_gt (r : ℝ) (o : GameObject) (hr : 0 ≤ r) : r < absorbOne r o := by
  have hv := effectiveVolume_pos o
  have hb : r ^ 3 < r ^ 3 + 3 * effectiveVolume o / (4 * Real.pi) := by
    have : 0 < 3 * effectiveVolume o / (4 * Real.pi) := by positivity
    linarith
  have hr3 : (0 : ℝ) ≤ r ^ 3 := by positivity
  have hmono : (r ^ (3 : ℕ)) ^ ((1 : ℝ) / 3) <
      (r ^ 3 + 3 * effectiveVolume o / (4 * Real.pi)) ^ ((1 : ℝ) / 3) :=
    Real.rpow_lt_rpow hr3 hb (by norm_num)
  rw [rpow_third_self hr] at hmono
  have hpos : 0 < (r ^ 3 + 3 * effectiveVolume o / (4 * Real.pi)) ^ ((1 : ℝ) / 3) :=
    lt_of_le_of_lt hr hmono
  rw [absorbOne_eq_rpow, if_neg (not_le.mpr hpos)]
  exact hmono

lemma absorbOne_pos (r : ℝ) (o : GameObject) (hr : 0 ≤ r) : 0 < absorbOne r o :=
  lt_of_le_of_lt hr (absorbOne_gt r o hr)

/-- Volume bookkeeping for a single absorption with the effective volume. -/
lemma absorbOne_volume (r : ℝ) (o : GameObject) (hr : 0 ≤ r) :
    calculateSphereVolume (absorbOne r o) =
      calculateSphereVolume r + effectiveVolume o := by
  have hv := effectiveVolume_pos o
  have hbpos : 0 < r ^ 3 + 3 * effectiveVolume o / (4 * Real.pi) := by positivity
  have hns : absorbOne r o = (r ^ 3 + 3 * effectiveVolume o / (4 * Real.pi)) ^ ((1 : ℝ) / 3) := by
    rw [absorbOne_eq_rpow, if_neg (not_le.mpr (Real.rpow_pos_of_pos hbpos _))]
  rw [hns]
  unfold calculateSphereVolume
  rw [rpow_third_cube hbpos.le]
  have hpi : Real.pi ≠ 0 := Real.pi_ne_zero
  field_simp
  ring

lemma shapeVolume_pos (k : ShapeKind) (s : ℝ) (hs : 0 < s) : 0 < shapeVolume k s := by
  have hpi := Real.pi_pos
  cases k <;> simp only [shapeVolume] <;> positivity

lemma effectiveVolume_eq_shapeVolume (o : GameObject) (hs : 0 < o.size) :
    effectiveVolume o = shapeVolume o.shape o.size := by
  unfold effectiveVolume
  rw [if_neg (not_le.mpr (shapeVolume_pos o.shape o.size hs))]

/-! ## C1: volume conservation -/

/-- C1 — for any starting radius `r ≥ 0` and any sequence of absorbed bodies
with positive nominal sizes, the final player volume is exactly the initial
player volume plus the sum of the per-shape volumes of the absorbed bodies
(absorption uses the per-shape formulas of `shapeVolume` and the radius
inversion `((3·(playerVolume+addedVolume))/(4π))^(1/3)`). -/
theorem growth_volume_conservation (r : ℝ) (objs : List GameObject)
    (hr : 0 ≤ r) (hs : ∀ o ∈ objs, 0 < o.size) :
    calculateSphereVolume (absorbAll r objs) =
      calculateSphereVolume r + totalShapeVolume objs := by
  induction objs generalizing r with
  | nil => simp [absorbAll, totalShapeVolume]
  | cons o rest ih =>
    have ho : 0 < o.size := hs o (List.mem_cons_self o rest)
    have hrest : ∀ o' ∈ rest, 0 < o'.size := fun o' h => hs o' (List.mem_cons_of_mem o h)
    have h1 : absorbAll r (o :: rest) = absorbAll (absorbOne r o) rest := rfl
    rw [h1, ih (absorbOne r o) (absorbOne_pos r o hr).le hrest, absorbOne_volume r o hr,
      effectiveVolume_eq_shapeVolume o ho]
    unfold totalShapeVolume
    simp [add_assoc]

/-- Witness for C1 at a concrete input: radius 1 absorbing a sphere of
nominal size `1/2`. -/
theorem growth_volume_conservation_witness :
    calculateSphereVolume (absorbAll 1 [{ shape := .sphere, size := 1 / 2, position := ⟨3, 0, 0⟩ }]) =
      calculateSphereVolume 1 +
        totalShapeVolume [{ shape := .sphere, size := 1 / 2, position := ⟨3, 0, 0⟩ }] :=
  growth_volume_conservation 1 _ (by norm_num)
    (by intro o ho; simp at ho; subst ho; norm_num)

/-! ## C2 and C10: collision partition -/

lemma mem_absorbable_iff (p : Vec3) (ps : ℝ) (l : List GameObject) (o : GameObject) :
    o ∈ (checkCollisionsList p ps l).absorbable ↔
      o ∈ l ∧ o.isBarrier = false ∧
        dist3 p o.position < ps + collisionRadiusOf o ∧ o.size < ps := by
  induction l with
  | nil => simp [checkCollisionsList]
  | cons a rest ih =>
    by_cases hoa : o = a
    · subst hoa
      simp only [checkCollisionsList]
      split_ifs with h1 h2 h3 h4 <;> simp_all [List.mem_cons]
    · simp only [checkCollisionsList]
      split_ifs with h1 h2 h3 h4 <;> simp_all [List.mem_cons, hoa]

lemma mem_larger_iff (p : Vec3) (ps : ℝ) (l : List GameObject) (c : LargerCollision) :
    c ∈ (checkCollisionsList p ps l).larger ↔
      ∃ o ∈ l, o.isBarrier = false ∧
        dist3 p o.position < ps + collisionRadiusOf o ∧ ¬ o.size < ps ∧
        c = mkLargerCollision p o := by
  induction l with
  | nil => simp [checkCollisionsList]
  | cons a rest ih =>
    simp only [checkCollisionsList]
    split_ifs with h1 h2 h3 h4 <;>
      simp_all [List.mem_cons, or_and_right, exists_or]

lemma mem_barrierHits_iff (p : Vec3) (ps : ℝ) (l : List GameObject) (o : GameObject) :
    o ∈ (checkCollisionsList p ps l).barrierHits ↔
      o ∈ l ∧ o.isBarrier = true ∧ checkBarrierCollision p o ps := by
  induction l with
  | nil => simp [checkCollisionsList]
  | cons a rest ih =>
    by_cases hoa : o = a
    · subst hoa
      simp only [checkCollisionsList]
      split_ifs with h1 h2 h3 h4 <;> simp_all [List.mem_cons]
    · simp only [checkCollisionsList]
      split_ifs with h1 h2 h3 h4 <;> simp_all [List.mem_cons, hoa]

lemma scenario_dist : dist3 ⟨0.9, 0, 0⟩ ⟨0, 0, 0⟩ = 0.9 := by
  simp only [dist3, norm3, Vec3.sub_def]
  rw [show ((0.9 : ℝ) - 0) ^ 2 + (0 - 0) ^ 2 + (0 - 0) ^ 2 = 0.9 ^ 2 by norm_num]
  exact Real.sqrt_sq (by norm_num)

lemma scenario_scan :
    checkCollisionsList ⟨0.9, 0, 0⟩ 0.5
        [{ shape := .box, size := 2, position := ⟨0, 0, 0⟩, collisionRadius := some 1 }] =
      ⟨[], [⟨{ shape := .box, size := 2, position := ⟨0, 0, 0⟩, collisionRadius := some 1 },
             0.9, 1, ⟨0, 0, 0⟩⟩], []⟩ := by
  simp only [checkCollisionsList, collisionRadiusOf, mkLargerCollision, scenario_dist]
  norm_num

lemma scenario_velocity :
    (handleLargerObjectCollisions 0.5 ⟨⟨0.9, 0, 0⟩, ⟨0, 0, 0⟩⟩
        [⟨{ shape := .box, size := 2, position := ⟨0, 0, 0⟩, collisionRadius := some 1 },
          0.9, 1, ⟨0, 0, 0⟩⟩]).velocity.x =
      (0.5 + 1 - 0.9) * (0.2 + Real.log (min (2 / 0.5) 10 + 1) * 0.1) := by
  have hn : norm3 ⟨0.9 - 0, 0 - 0, 0 - 0⟩ = 0.9 := by
    simp only [norm3]
    rw [show ((0.9 : ℝ) - 0) ^ 2 + (0 - 0) ^ 2 + (0 - 0) ^ 2 = 0.9 ^ 2 by norm_num]
    exact Real.sqrt_sq (by norm_num)
  simp only [handleLargerObjectCollisions, List.foldl, handleLargerOne]
  rw [if_pos (by norm_num : (0 : ℝ) < 0.5 + 1 - 0.9)]
  simp only [normalize3, Vec3.sub_def, hn]
  split_ifs with hc
  · dsimp only
    rw [show ((0.9 : ℝ) - 0) / 0.9 = 1 by norm_num]
    ring
  · dsimp only
    rw [show ((0.9 : ℝ) - 0) / 0.9 = 1 by norm_num]
    ring

/-- C2 — every non-barrier body within collision range is classified
absorbable exactly when its nominal size is strictly below the player
radius and blocking exactly when it is not; the two lists are disjoint;
and in the concrete scenario (cube of nominal size 2 with effective radius
1 at the origin, player of radius 0.5 at distance 0.9) the cube lands in
the blocking list and the responder adds a strictly outward velocity
component. -/
theorem collision_partition_spec :
    (∀ (p : Vec3) (ps : ℝ) (l : List GameObject) (o : GameObject),
      o ∈ l → o.isBarrier = false → dist3 p o.position < ps + collisionRadiusOf o →
        ((o ∈ (checkCollisionsList p ps l).absorbable ↔ o.size < ps) ∧
         ((∃ c ∈ (checkCollisionsList p ps l).larger, c.object = o) ↔ ps ≤ o.size))) ∧
    (∀ (p : Vec3) (ps : ℝ) (l : List GameObject) (o : GameObject),
      ¬ (o ∈ (checkCollisionsList p ps l).absorbable ∧
         ∃ c ∈ (checkCollisionsList p ps l).larger, c.object = o)) ∧
    ((∃ c ∈ (checkCollisionsList ⟨0.9, 0, 0⟩ 0.5
          [{ shape := .box, size := 2, position := ⟨0, 0, 0⟩,
             collisionRadius := some 1 }]).larger,
        c.object = { shape := .box, size := 2, position := ⟨0, 0, 0⟩,
                     collisionRadius := some 1 }) ∧
      0 < (handleLargerObjectCollisions 0.5 ⟨⟨0.9, 0, 0⟩, ⟨0, 0, 0⟩⟩
          (checkCollisionsList ⟨0.9, 0, 0⟩ 0.5
            [{ shape := .box, size := 2, position := ⟨0, 0, 0⟩,
               collisionRadius := some 1 }]).larger).velocity.x) := by
  refine ⟨?_, ?_, ?_⟩
  · intro p ps l o hmem hbar hdist
    constructor
    · rw [mem_absorbable_iff]
      simp [hmem, hbar, hdist]
    · constructor
      · rintro ⟨c, hc, hco⟩
        rw [mem_larger_iff] at hc
        obtain ⟨o', _, _, _, hsize, rfl⟩ := hc
        have ho' : o' = o := hco
        subst ho'
        exact not_lt.mp hsize
      · intro hge
        exact ⟨mkLargerCollision p o,
          (mem_larger_iff p ps l _).mpr ⟨o, hmem, hbar, hdist, not_lt.mpr hge, rfl⟩, rfl⟩
  · rintro p ps l o ⟨habs, c, hc, hco⟩
    rw [mem_absorbable_iff] at habs
    rw [mem_larger_iff] at hc
    obtain ⟨o', _, _, _, hsize, rfl⟩ := hc
    have ho' : o' = o := hco
    subst ho'
    exact hsize habs.2.2.2
  · constructor
    · rw [scenario_scan]
      exact ⟨_, List.mem_singleton.mpr rfl, rfl⟩
    · rw [scenario_scan, scenario_velocity]
      have hlog : 0 < Real.log (min ((2 : ℝ) / 0.5) 10 + 1) := by
        rw [show min ((2 : ℝ) / 0.5) 10 + 1 = 5 by norm_num]
        exact Real.log_pos (by norm_num)
      nlinarith

/-- Witness for C2: the partition characterization applied to the concrete
scenario cube. -/
theorem collision_partition_spec_witness :
    ∃ c ∈ (checkCollisionsList ⟨0.9, 0, 0⟩ 0.5
        [{ shape := .box, size := 2, position := ⟨0, 0, 0⟩,
           collisionRadius := some 1 }]).larger,
      c.object = ({ shape := .box, size := 2, position := ⟨0, 0, 0⟩,
                    collisionRadius := some 1 } : GameObject) :=
  ((collision_partition_spec.1 ⟨0.9, 0, 0⟩ 0.5
      [{ shape := .box, size := 2, position := ⟨0, 0, 0⟩, collisionRadius := some 1 }]
      { shape := .box, size := 2, position := ⟨0, 0, 0⟩, collisionRadius := some 1 }
      (List.mem_singleton.mpr rfl) rfl
      (by rw [show ({ shape := .box, size := 2, position := ⟨0, 0, 0⟩,
                      collisionRadius := some 1 } : GameObject).position = ⟨0, 0, 0⟩ from rfl,
                scenario_dist]
          simp only [collisionRadiusOf]
          norm_num)).2).mpr (by norm_num)

/-- C10 — a body flagged as a barrier never appears in the absorbable list
of the collision scan, whatever the player state and body list. -/
theorem barrier_never_absorbable (p : Vec3) (ps : ℝ) (l : List GameObject)
    (o : GameObject) (hb : o.isBarrier = true) :
    o ∉ (checkCollisionsList p ps l).absorbable := by
  rw [mem_absorbable_iff]
  rintro ⟨-, hf, -⟩
  rw [hb] at hf
  exact Bool.noConfusion hf

/-- Witness for C10: a barrier of tiny nominal size against a much larger
player is still never absorbable. -/
theorem barrier_never_absorbable_witness :
    ({ shape := .box, size := 0.1, position := ⟨0, 0, 0⟩, isBarrier := true,
       halfWidth := 1, halfHeight := 1, halfDepth := 1 } : GameObject) ∉
      (checkCollisionsList ⟨0, 0, 0⟩ 5
        [{ shape := .box, size := 0.1, position := ⟨0, 0, 0⟩, isBarrier := true,
           halfWidth := 1, halfHeight := 1, halfDepth := 1 }]).absorbable :=
  barrier_never_absorbable ⟨0, 0, 0⟩ 5 _ _ rfl

/-! ## C3: handling of invalid volumes -/

/-- C3 counterexample — an absorption whose computed shape volume is
invalid (`≤ 0`) is NOT skipped: for a sphere of nominal size 0 the computed
volume is 0, yet the player of radius 1 still grows (the code substitutes
the default volume `1.0` and proceeds). -/
theorem invalid_volume_not_skipped_cex :
    shapeVolume ShapeKind.sphere 0 ≤ 0 ∧
      1 < absorbOne 1 { shape := .sphere, size := 0, position := ⟨0, 0, 0⟩ } :=
  ⟨by norm_num [shapeVolume], absorbOne_gt 1 _ (by norm_num)⟩

/-- C3 amended — an invalid (`≤ 0`) computed shape volume is replaced by the
default `1.0` and the absorption still mutates the player (strictly growing
the radius); only an invalid resulting radius would be skipped, and for any
valid (nonnegative) starting radius the resulting radius is always
positive, so the absorption is applied. -/
theorem invalid_volume_default_substitution (r : ℝ) (o : GameObject) (hr : 0 ≤ r) :
    (shapeVolume o.shape o.size ≤ 0 →
      absorbOne r o = calculateNewRadius r 1 ∧ r < absorbOne r o) ∧
    0 < absorbOne r o := by
  refine ⟨fun hv => ⟨?_, absorbOne_gt r o hr⟩, absorbOne_pos r o hr⟩
  have hev : effectiveVolume o = 1 := by
    unfold effectiveVolume
    rw [if_pos hv]
  have hbpos : 0 < r ^ 3 + 3 * effectiveVolume o / (4 * Real.pi) := by
    rw [hev]
    positivity
  rw [absorbOne_eq_rpow, if_neg (not_le.mpr (Real.rpow_pos_of_pos hbpos _)), hev,
    calculateNewRadius_eq_rpow]

/-- Witness for the amended C3 at radius 1 and a sphere of nominal size 0. -/
theorem invalid_volume_default_substitution_witness :
    shapeVolume ShapeKind.sphere 0 ≤ 0 ∧
      (absorbOne 1 { shape := .sphere, size := 0, position := ⟨0, 0, 0⟩ } =
          calculateNewRadius 1 1 ∧
        1 < absorbOne 1 { shape := .sphere, size := 0, position := ⟨0, 0, 0⟩ }) ∧
      0 < absorbOne 1 { shape := .sphere, size := 0, position := ⟨0, 0, 0⟩ } :=
  ⟨by norm_num [shapeVolume],
   (invalid_volume_default_substitution 1 _ (by norm_num)).1 (by norm_num [shapeVolume]),
   (invalid_volume_default_substitution 1 _ (by norm_num)).2⟩

/-! ## C5: monotone growth -/

lemma absorbStepOne_sphereSize (st : GameState) (o : GameObject) :
    (absorbStepOne st o).sphereSize = absorbOne st.sphereSize o := by
  simp only [absorbStepOne, absorbOne]
  split_ifs <;> rfl

lemma absorbFold_sphereSize (l : List GameObject) (st : GameState)
    (h : 0 ≤ st.sphereSize) :
    0 ≤ (l.foldl absorbStepOne st).sphereSize ∧
      st.sphereSize ≤ (l.foldl absorbStepOne st).sphereSize := by
  induction l generalizing st with
  | nil => exact ⟨h, le_refl _⟩
  | cons o rest ih =>
    have hstep : st.sphereSize < (absorbStepOne st o).sphereSize := by
      rw [absorbStepOne_sphereSize]
      exact absorbOne_gt st.sphereSize o h
    have h' : 0 ≤ (absorbStepOne st o).sphereSize := le_of_lt (lt_of_le_of_lt h hstep)
    obtain ⟨h0, hle⟩ := ih (absorbStepOne st o) h'
    exact ⟨h0, le_trans (le_of_lt hstep) hle⟩

lemma applyPhysics_sphereSize (s : GameState) (delta : ℝ) :
    (applyPhysics s delta).sphereSize = s.sphereSize := by
  simp only [applyPhysics]
  split_ifs <;> rfl

lemma tickResponse_sphereSize (s : GameState) (scan : CollisionScan) :
    (tickResponse s scan).sphereSize = s.sphereSize := rfl

lemma tickAbsorb_sphereSize (cfg : GameConfig) (s : GameState)
    (absorbable : List GameObject) (draws : List SpawnDraw) (h : 0 ≤ s.sphereSize) :
    0 ≤ (tickAbsorb cfg s absorbable draws).sphereSize ∧
      s.sphereSize ≤ (tickAbsorb cfg s absorbable draws).sphereSize := by
  simp only [tickAbsorb]
  split_ifs with hempty
  · exact ⟨h, le_refl _⟩
  · exact absorbFold_sphereSize absorbable s h

lemma tick_sphereSize (cfg : GameConfig) (s : GameState) (t : TickInput)
    (h : 0 ≤ s.sphereSize) :
    0 ≤ (tick cfg s t).sphereSize ∧ s.sphereSize ≤ (tick cfg s t).sphereSize := by
  simp only [tick]
  have hmid : (applyPhysics (tickResponse { s with velocity := t.inputVelocity }
      (checkCollisionsList s.position s.sphereSize s.objects)) t.delta).sphereSize =
        s.sphereSize := by
    rw [applyPhysics_sphereSize, tickResponse_sphereSize]
  have := tickAbsorb_sphereSize cfg
    (applyPhysics (tickResponse { s with velocity := t.inputVelocity }
      (checkCollisionsList s.position s.sphereSize s.objects)) t.delta)
    (checkCollisionsList s.position s.sphereSize s.objects).absorbable t.draws
    (by rw [hmid]; exact h)
  rw [hmid] at this
  exact this

/-- C5 — each successful absorption strictly increases the player radius,
and across a whole session (any sequence of frames with arbitrary inputs,
collisions, population maintenance and physics) the radius never
decreases. -/
theorem radius_monotone_growth :
    (∀ (r : ℝ) (o : GameObject), 0 ≤ r → r < absorbOne r o) ∧
    (∀ (cfg : GameConfig) (s : GameState) (ts : List TickInput),
      0 ≤ s.sphereSize → s.sphereSize ≤ (runSession cfg s ts).sphereSize) := by
  refine ⟨fun r o hr => absorbOne_gt r o hr, fun cfg s ts => ?_⟩
  induction ts generalizing s with
  | nil => intro h; exact le_refl _
  | cons t rest ih =>
    intro h
    obtain ⟨h0, hle⟩ := tick_sphereSize cfg s t h
    exact le_trans hle (ih (tick cfg s t) h0)

/-- Witness for C5: a single-frame session starting from radius 1 with one
absorbable cube. -/
theorem radius_monotone_growth_witness :
    (1 : ℝ) < absorbOne 1 { shape := .box, size := 0.5, position := ⟨1, 0, 0⟩ } ∧
      (1 : ℝ) ≤ (runSession
        ⟨10, 10, 1000, 400, 1, true, 30, 1.5⟩
        ⟨1, ⟨0, 1, 0⟩, ⟨0, 0, 0⟩,
          [{ shape := .box, size := 0.5, position := ⟨1, 0, 0⟩ }]⟩
        [⟨⟨1, 0, 0⟩, 0.016, []⟩]).sphereSize :=
  ⟨radius_monotone_growth.1 1 _ (by norm_num),
   radius_monotone_growth.2 ⟨10, 10, 1000, 400, 1, true, 30, 1.5⟩
     ⟨1, ⟨0, 1, 0⟩, ⟨0, 0, 0⟩, [{ shape := .box, size := 0.5, position := ⟨1, 0, 0⟩ }]⟩
     [⟨⟨1, 0, 0⟩, 0.016, []⟩] (by norm_num)⟩

/-! ## C4: placement allocator -/

lemma findPositionAux_some (psize er : ℝ) (ppos : Option Vec3) (objs : List GameObject)
    (maxCoord : ℝ) (draws : List (ℝ × ℝ)) (p : Vec3)
    (hd : ∀ d ∈ draws, 0 ≤ d.1 ∧ d.1 ≤ 1 ∧ 0 ≤ d.2 ∧ d.2 ≤ 1)
    (hm : 0 ≤ maxCoord)
    (h : findPositionAux psize er ppos objs maxCoord draws = some p) :
    validPlacement psize er ppos objs p ∧
      -maxCoord ≤ p.x ∧ p.x ≤ maxCoord ∧ -maxCoord ≤ p.z ∧ p.z ≤ maxCoord := by
  induction draws with
  | nil => simp [findPositionAux] at h
  | cons d rest ih =>
    simp only [findPositionAux] at h
    split_ifs at h with hv
    · have hp : candidatePosition maxCoord d = p := by injection h
      subst hp
      obtain ⟨h1, h2, h3, h4⟩ := hd d (List.mem_cons_self _ _)
      refine ⟨hv, ?_, ?_, ?_, ?_⟩ <;>
        simp only [candidatePosition, randomInRange] <;> nlinarith
    · exact ih (fun d' h' => hd d' (List.mem_cons_of_mem _ h')) h

lemma findPositionAux_none (psize er : ℝ) (ppos : Option Vec3) (objs : List GameObject)
    (maxCoord : ℝ) (draws : List (ℝ × ℝ))
    (h : ∀ d ∈ draws, ¬ validPlacement psize er ppos objs (candidatePosition maxCoord d)) :
    findPositionAux psize er ppos objs maxCoord draws = none := by
  induction draws with
  | nil => rfl
  | cons d rest ih =>
    simp only [findPositionAux]
    rw [if_neg (h d (List.mem_cons_self _ _))]
    exact ih (fun d' h' => h d' (List.mem_cons_of_mem _ h'))

/-- C4 — any position returned by the allocator keeps the clearance margin
(5) to the player, keeps the 0.5 overlap buffer to every existing body, and
lies inside `[-maxCoord, maxCoord]²` with
`maxCoord = min(playableArea, mapSize/2 - size)`; and when every one of the
(at most 50 examined) draws fails the validity test, the allocator returns
the placement-failure signal `none`. -/
theorem placement_allocator_spec :
    (∀ (cfg : GameConfig) (size : ℝ) (shape : ShapeKind) (ps : ℝ) (pp : Vec3)
        (objs : List GameObject) (draws : List (ℝ × ℝ)) (p : Vec3),
      (∀ d ∈ draws, 0 ≤ d.1 ∧ d.1 ≤ 1 ∧ 0 ≤ d.2 ∧ d.2 ≤ 1) →
      0 ≤ min cfg.playableArea (cfg.mapSize / 2 - size) →
      findNonOverlappingPosition cfg size shape ps (some pp) objs draws = some p →
        (ps + placementEffectiveRadius shape size + 5 ≤ dist2 p pp ∧
         (∀ o ∈ objs,
            placementEffectiveRadius shape size + placementEffectiveRadius o.shape o.size
              + 0.5 ≤ dist2 p o.position) ∧
         -(min cfg.playableArea (cfg.mapSize / 2 - size)) ≤ p.x ∧
         p.x ≤ min cfg.playableArea (cfg.mapSize / 2 - size) ∧
         -(min cfg.playableArea (cfg.mapSize / 2 - size)) ≤ p.z ∧
         p.z ≤ min cfg.playableArea (cfg.mapSize / 2 - size))) ∧
    (∀ (cfg : GameConfig) (size : ℝ) (shape : ShapeKind) (ps : ℝ) (ppos : Option Vec3)
        (objs : List GameObject) (draws : List (ℝ × ℝ)),
      (∀ d ∈ draws.take 50,
        ¬ validPlacement ps (placementEffectiveRadius shape size) ppos objs
            (candidatePosition (min cfg.playableArea (cfg.mapSize / 2 - size)) d)) →
      findNonOverlappingPosition cfg size shape ps ppos objs draws = none) := by
  constructor
  · intro cfg size shape ps pp objs draws p hd hm h
    simp only [findNonOverlappingPosition] at h
    have hd' : ∀ d ∈ draws.take 50, 0 ≤ d.1 ∧ d.1 ≤ 1 ∧ 0 ≤ d.2 ∧ d.2 ≤ 1 :=
      fun d hmem => hd d (List.mem_of_mem_take hmem)
    obtain ⟨⟨hplayer, hobjs⟩, hb⟩ := findPositionAux_some ps
      (placementEffectiveRadius shape size) (some pp) objs _ _ p hd' hm h
    exact ⟨not_lt.mp (hplayer pp rfl), fun o ho => not_lt.mp (hobjs o ho),
      hb.1, hb.2.1, hb.2.2.1, hb.2.2.2⟩
  · intro cfg size shape ps ppos objs draws h
    simp only [findNonOverlappingPosition]
    exact findPositionAux_none _ _ _ _ _ _ h

lemma placement_witness_dist : dist2 ⟨400, 0, 0⟩ ⟨0, 0, 0⟩ = 400 := by
  simp only [dist2]
  rw [show ((400 : ℝ) - 0) ^ 2 + ((0 : ℝ) - 0) ^ 2 = 400 ^ 2 by norm_num]
  exact Real.sqrt_sq (by norm_num)

lemma placement_witness_cand : candidatePosition 400 ((1 : ℝ), (0.5 : ℝ)) = ⟨400, 0, 0⟩ := by
  simp only [candidatePosition, randomInRange, Vec3.mk.injEq]
  norm_num

lemma placement_witness_valid :
    validPlacement 1 (placementEffectiveRadius .sphere 1) (some ⟨0, 0, 0⟩) []
      ⟨400, 0, 0⟩ := by
  constructor
  · intro pp hpp
    have hpp' : (⟨0, 0, 0⟩ : Vec3) = pp := by injection hpp
    subst hpp'
    rw [placement_witness_dist, show placementEffectiveRadius .sphere 1 = 1 from rfl]
    norm_num
  · intro o ho
    exact absurd ho (List.not_mem_nil o)

lemma placement_witness_find :
    findNonOverlappingPosition ⟨1000, 1000, 1000, 400, 1, true, 30, 1.5⟩ 1 .sphere 1
        (some ⟨0, 0, 0⟩) [] [(1, 0.5)] = some ⟨400, 0, 0⟩ := by
  have h0 : findNonOverlappingPosition ⟨1000, 1000, 1000, 400, 1, true, 30, 1.5⟩ 1 .sphere 1
      (some ⟨0, 0, 0⟩) [] [(1, 0.5)] =
        findPositionAux 1 (placementEffectiveRadius .sphere 1) (some ⟨0, 0, 0⟩) []
          (min (400 : ℝ) (1000 / 2 - 1)) [((1 : ℝ), (0.5 : ℝ))] := rfl
  rw [h0, show min (400 : ℝ) (1000 / 2 - 1) = 400 by norm_num]
  simp only [findPositionAux, placement_witness_cand]
  rw [if_pos placement_witness_valid]

/-- Witness for C4: the allocator applied to one concrete draw satisfies the
clearance bound to the player. -/
theorem placement_allocator_spec_witness :
    (0 : ℝ) ≤ min ((⟨1000, 1000, 1000, 400, 1, true, 30, 1.5⟩ : GameConfig).playableArea)
        ((⟨1000, 1000, 1000, 400, 1, true, 30, 1.5⟩ : GameConfig).mapSize / 2 - 1) ∧
      1 + placementEffectiveRadius .sphere 1 + 5 ≤ dist2 ⟨400, 0, 0⟩ ⟨0, 0, 0⟩ := by
  refine ⟨by norm_num, ?_⟩
  exact (placement_allocator_spec.1 ⟨1000, 1000, 1000, 400, 1, true, 30, 1.5⟩ 1 .sphere 1
    ⟨0, 0, 0⟩ [] [(1, 0.5)] ⟨400, 0, 0⟩
    (by intro d hd
        simp only [List.mem_singleton] at hd
        subst hd
        norm_num)
    (by norm_num) placement_witness_find).1

/-! ## C6: cull safety -/

/-- C6 — the cull step removes a body only when all three conditions hold
(smaller than a tenth of the player, below the absolute minimum 5, and
squared distance from the origin above `playableArea²`); consequently any
body failing the first or the second condition survives regardless of its
distance. -/
theorem cull_safety_spec :
    (∀ (cfg : GameConfig) (ps : ℝ) (objs : List GameObject) (o : GameObject),
      o ∈ objs → (ps * 0.1 ≤ o.size ∨ 5 ≤ o.size) →
        o ∈ cullTinyObjects cfg ps objs) ∧
    (∀ (cfg : GameConfig) (ps : ℝ) (objs : List GameObject) (o : GameObject),
      o ∈ objs → o ∉ cullTinyObjects cfg ps objs →
        o.size < ps * 0.1 ∧ o.size < 5 ∧
          cfg.playableArea * cfg.playableArea <
            o.position.x ^ 2 + o.position.y ^ 2 + o.position.z ^ 2) := by
  constructor
  · intro cfg ps objs o hmem hbig
    simp only [cullTinyObjects]
    rw [List.mem_filter]
    refine ⟨hmem, ?_⟩
    rw [decide_eq_true_eq]
    rintro ⟨h1, h2, h3⟩
    rcases hbig with hb | hb
    · exact absurd h1 (not_lt.mpr hb)
    · exact absurd h2 (not_lt.mpr hb)
  · intro cfg ps objs o hmem hnot
    simp only [cullTinyObjects, List.mem_filter, hmem, true_and, decide_eq_true_eq,
      not_not] at hnot
    exact hnot

/-- Witness for C6: a body of nominal size 7 far outside the playable area
survives culling against a player of radius 100. -/
theorem cull_safety_spec_witness :
    ({ shape := .box, size := 7, position := ⟨10000, 0, 0⟩ } : GameObject) ∈
      cullTinyObjects ⟨1000, 1000, 1000, 400, 1, true, 30, 1.5⟩ 100
        [{ shape := .box, size := 7, position := ⟨10000, 0, 0⟩ }] :=
  cull_safety_spec.1 _ 100 _ _ (List.mem_singleton.mpr rfl) (Or.inr (by norm_num))

/-! ## C9: maintenance with respawn disabled -/

/-- C9 counterexample — with the respawn flag disabled the maintenance step
does NOT cull: a body the cull filter would remove (tiny and far away) is
left untouched because `checkAndSpawnObjects` returns before the cull
pass. -/
theorem respawn_disabled_no_cull_cex :
    checkAndSpawnObjects ⟨1000, 1000, 1000, 400, 1, false, 30, 1.5⟩ 10 none
        [{ shape := .box, size := 0.1, position := ⟨500, 0, 0⟩ }] [] =
      [{ shape := .box, size := 0.1, position := ⟨500, 0, 0⟩ }] ∧
    cullTinyObjects ⟨1000, 1000, 1000, 400, 1, false, 30, 1.5⟩ 10
        [{ shape := .box, size := 0.1, position := ⟨500, 0, 0⟩ }] = [] := by
  constructor
  · simp only [checkAndSpawnObjects]
    rw [if_pos trivial]
  · simp only [cullTinyObjects]
    rw [List.filter_cons, if_neg, List.filter_nil]
    simp only [decide_eq_true_eq, not_not]
    norm_num

/-- C9 amended — when the respawn policy flag is disabled, the
population-maintenance step is a complete no-op: it spawns nothing, culls
nothing, and returns the object list unchanged. -/
theorem respawn_disabled_noop (cfg : GameConfig) (ps : ℝ) (ppos : Option Vec3)
    (objs : List GameObject) (draws : List SpawnDraw)
    (h : cfg.respawnObjects = false) :
    checkAndSpawnObjects cfg ps ppos objs draws = objs := by
  simp only [checkAndSpawnObjects]
  rw [if_pos h]

/-- Witness for the amended C9 at a concrete disabled configuration. -/
theorem respawn_disabled_noop_witness :
    checkAndSpawnObjects ⟨1000, 1000, 1000, 400, 1, false, 30, 1.5⟩ 10 none
        [{ shape := .box, size := 0.1, position := ⟨500, 0, 0⟩ }] [] =
      [{ shape := .box, size := 0.1, position := ⟨500, 0, 0⟩ }] :=
  respawn_disabled_noop _ 10 none _ [] rfl

/-! ## C7: barrier response -/

lemma vertical_box_closest :
    closestBoxPoint
      { shape := .box, size := 1, position := ⟨0, 0, 0⟩, isBarrier := true,
        halfWidth := 1, halfHeight := 1, halfDepth := 1 }
      ⟨0, 1.5, 0⟩ = ⟨0, 1, 0⟩ := by
  simp only [closestBoxPoint, barrierLocalPoint, barrierWorldPoint, Vec3.sub_def,
    Vec3.mk.injEq]
  norm_num

lemma vertical_box_dist : dist3 (⟨0, 1.5, 0⟩ : Vec3) ⟨0, 1, 0⟩ = 0.5 := by
  simp only [dist3, norm3, Vec3.sub_def]
  rw [show ((0 : ℝ) - 0) ^ 2 + ((1.5 : ℝ) - 1) ^ 2 + ((0 : ℝ) - 0) ^ 2 = 0.5 ^ 2 by norm_num]
  exact Real.sqrt_sq (by norm_num)

lemma vertical_box_normal :
    normalize3 ((⟨0, 1.5, 0⟩ : Vec3) - ⟨0, 1, 0⟩) = ⟨0, 1, 0⟩ := by
  simp only [normalize3, Vec3.sub_def]
  rw [show norm3 ⟨(0 : ℝ) - 0, (1.5 : ℝ) - 1, (0 : ℝ) - 0⟩ = 0.5 from vertical_box_dist]
  simp only [Vec3.mk.injEq]
  norm_num

/-- C7 counterexample — a hit from straight above the barrier box has
positive penetration (0.5) and a purely vertical collision normal, yet the
response does not move the player at all: the push is applied only to the x
and z components, so the player is NOT pushed out along the normal by
`penetration × 1.01`. -/
theorem barrier_push_vertical_cex :
    dist3 (⟨0, 1.5, 0⟩ : Vec3)
      (closestBoxPoint
        { shape := .box, size := 1, position := ⟨0, 0, 0⟩, isBarrier := true,
          halfWidth := 1, halfHeight := 1, halfDepth := 1 }
        ⟨0, 1.5, 0⟩) = 0.5 ∧
    normalize3 ((⟨0, 1.5, 0⟩ : Vec3) -
      closestBoxPoint
        { shape := .box, size := 1, position := ⟨0, 0, 0⟩, isBarrier := true,
          halfWidth := 1, halfHeight := 1, halfDepth := 1 }
        ⟨0, 1.5, 0⟩) = ⟨0, 1, 0⟩ ∧
    (handleBarrierCollisions 1 ⟨⟨0, 1.5, 0⟩, ⟨0, 0, 0⟩⟩
      [{ shape := .box, size := 1, position := ⟨0, 0, 0⟩, isBarrier := true,
         halfWidth := 1, halfHeight := 1, halfDepth := 1 }]).position =
      ⟨0, 1.5, 0⟩ := by
  refine ⟨by rw [vertical_box_closest]; exact vertical_box_dist,
    by rw [vertical_box_closest]; exact vertical_box_normal, ?_⟩
  simp only [handleBarrierCollisions, List.foldl, handleBarrierOne]
  rw [vertical_box_closest, vertical_box_dist, vertical_box_normal]
  rw [if_pos (by norm_num : (0 : ℝ) < 1 - 0.5)]
  rw [if_neg (by norm_num [dot3] : ¬ dot3 ⟨0, 0, 0⟩ ⟨0, 1, 0⟩ < 0)]
  simp only [Vec3.mk.injEq]
  norm_num

/-- C7 amended — for every barrier hit with positive penetration and the
player center strictly outside the box, the collision normal is the
normalized vector from the closest box point to the player center (each
component the coordinate difference over the distance); the player is
pushed by the x and z components of that normal times `penetration × 1.01`
while the y coordinate stays unchanged; and exactly when the horizontal
velocity has a negative dot product with the normal, the horizontal
velocity is replaced by its reflection `v - 2(v·n)n` scaled by the 0.7
energy-loss factor, the velocity being unchanged otherwise. -/
theorem barrier_response_spec (pr : ℝ) (s : PlayerState) (b : GameObject)
    (hd0 : 0 < dist3 s.position (closestBoxPoint b s.position))
    (hpen : dist3 s.position (closestBoxPoint b s.position) < pr) :
    normalize3 (s.position - closestBoxPoint b s.position) =
      ⟨(s.position.x - (closestBoxPoint b s.position).x) /
          dist3 s.position (closestBoxPoint b s.position),
       (s.position.y - (closestBoxPoint b s.position).y) /
          dist3 s.position (closestBoxPoint b s.position),
       (s.position.z - (closestBoxPoint b s.position).z) /
          dist3 s.position (closestBoxPoint b s.position)⟩ ∧
    (handleBarrierCollisions pr s [b]).position.x =
      s.position.x + (normalize3 (s.position - closestBoxPoint b s.position)).x *
        ((pr - dist3 s.position (closestBoxPoint b s.position)) * 1.01) ∧
    (handleBarrierCollisions pr s [b]).position.z =
      s.position.z + (normalize3 (s.position - closestBoxPoint b s.position)).z *
        ((pr - dist3 s.position (closestBoxPoint b s.position)) * 1.01) ∧
    (handleBarrierCollisions pr s [b]).position.y = s.position.y ∧
    (dot3 ⟨s.velocity.x, 0, s.velocity.z⟩
        (normalize3 (s.position - closestBoxPoint b s.position)) < 0 →
      (handleBarrierCollisions pr s [b]).velocity.x =
        (s.velocity.x - (normalize3 (s.position - closestBoxPoint b s.position)).x *
          (2 * dot3 ⟨s.velocity.x, 0, s.velocity.z⟩
            (normalize3 (s.position - closestBoxPoint b s.position)))) * 0.7 ∧
      (handleBarrierCollisions pr s [b]).velocity.z =
        (s.velocity.z - (normalize3 (s.position - closestBoxPoint b s.position)).z *
          (2 * dot3 ⟨s.velocity.x, 0, s.velocity.z⟩
            (normalize3 (s.position - closestBoxPoint b s.position)))) * 0.7 ∧
      (handleBarrierCollisions pr s [b]).velocity.y = s.velocity.y) ∧
    (0 ≤ dot3 ⟨s.velocity.x, 0, s.velocity.z⟩
        (normalize3 (s.position - closestBoxPoint b s.position)) →
      (handleBarrierCollisions pr s [b]).velocity = s.velocity) := by
  have hifpos : (0 : ℝ) < pr - dist3 s.position (closestBoxPoint b s.position) := by
    linarith
  refine ⟨rfl, ?_⟩
  simp only [handleBarrierCollisions, List.foldl, handleBarrierOne]
  rw [if_pos hifpos]
  split_ifs with hdot
  · exact ⟨rfl, rfl, rfl, fun _ => ⟨rfl, rfl, rfl⟩, fun hge => absurd hdot (not_lt.mpr hge)⟩
  · exact ⟨rfl, rfl, rfl, fun hlt => absurd hlt hdot, fun _ => rfl⟩

lemma side_box_closest :
    closestBoxPoint
      { shape := .box, size := 1, position := ⟨0, 0, 0⟩, isBarrier := true,
        halfWidth := 1, halfHeight := 1, halfDepth := 1 }
      ⟨1.5, 0.5, 0⟩ = ⟨1, 0.5, 0⟩ := by
  simp only [closestBoxPoint, barrierLocalPoint, barrierWorldPoint, Vec3.sub_def,
    Vec3.mk.injEq]
  norm_num

lemma side_box_dist : dist3 (⟨1.5, 0.5, 0⟩ : Vec3) ⟨1, 0.5, 0⟩ = 0.5 := by
  simp only [dist3, norm3, Vec3.sub_def]
  rw [show ((1.5 : ℝ) - 1) ^ 2 + ((0.5 : ℝ) - 0.5) ^ 2 + ((0 : ℝ) - 0) ^ 2 = 0.5 ^ 2 by
    norm_num]
  exact Real.sqrt_sq (by norm_num)

/-- Witness for the amended C7: a side hit on an axis-aligned barrier box. -/
theorem barrier_response_spec_witness :
    (0 : ℝ) < dist3 (⟨1.5, 0.5, 0⟩ : Vec3)
      (closestBoxPoint
        { shape := .box, size := 1, position := ⟨0, 0, 0⟩, isBarrier := true,
          halfWidth := 1, halfHeight := 1, halfDepth := 1 }
        ⟨1.5, 0.5, 0⟩) ∧
    dist3 (⟨1.5, 0.5, 0⟩ : Vec3)
      (closestBoxPoint
        { shape := .box, size := 1, position := ⟨0, 0, 0⟩, isBarrier := true,
          halfWidth := 1, halfHeight := 1, halfDepth := 1 }
        ⟨1.5, 0.5, 0⟩) < 1 ∧
    (handleBarrierCollisions 1 ⟨⟨1.5, 0.5, 0⟩, ⟨-2, 0, 0⟩⟩
      [{ shape := .box, size := 1, position := ⟨0, 0, 0⟩, isBarrier := true,
         halfWidth := 1, halfHeight := 1, halfDepth := 1 }]).position.y = 0.5 := by
  refine ⟨by rw [side_box_closest, side_box_dist]; norm_num,
    by rw [side_box_closest, side_box_dist]; norm_num, ?_⟩
  exact (barrier_response_spec 1 ⟨⟨1.5, 0.5, 0⟩, ⟨-2, 0, 0⟩⟩
    { shape := .box, size := 1, position := ⟨0, 0, 0⟩, isBarrier := true,
      halfWidth := 1, halfHeight := 1, halfDepth := 1 }
    (by rw [side_box_closest, side_box_dist]; norm_num)
    (by rw [side_box_closest, side_box_dist]; norm_num)).2.2.2.1

/-! ## C8: camera framing -/

lemma updateCameraForSize_distance (cfg : GameConfig) (cam : CameraState) (r : ℝ)
    (hr : 0 < r) :
    (updateCameraForSize cfg cam r).distance =
      r / ((if cfg.maxScreenPercentage = 0 then 30 else cfg.maxScreenPercentage) / 100) /
        Real.tan (cam.fov * Real.pi / 180 / 2) *
        (if cfg.cameraZoomRate = 0 then 1.5 else cfg.cameraZoomRate) *
        max 1 (cfg.playableArea / 400) := by
  simp only [updateCameraForSize]
  rw [if_neg (not_le.mpr hr)]

lemma updateCameraForSize_fov (cfg : GameConfig) (cam : CameraState) (r : ℝ)
    (hr : 0 < r) :
    (updateCameraForSize cfg cam r).fov = max 60 (min 100 (75 - 5 + r * 0.2)) := by
  simp only [updateCameraForSize]
  rw [if_neg (not_le.mpr hr)]

/-- C8 counterexample — the field of view used in the distance formula is
the camera's PREVIOUS field of view, not the freshly recomputed one: with
the previous FOV at 90° and radius 1, the new FOV is 70.2° but the computed
distance equals the formula at 90° (namely 5) and differs from the formula
evaluated at the recomputed 70.2°. -/
theorem camera_fov_order_cex :
    (updateCameraForSize ⟨1000, 1000, 1000, 400, 1, true, 30, 1.5⟩ ⟨90, 20, 10⟩ 1).fov
        = 70.2 ∧
    (updateCameraForSize ⟨1000, 1000, 1000, 400, 1, true, 30, 1.5⟩ ⟨90, 20, 10⟩ 1).distance
        = 5 ∧
    (updateCameraForSize ⟨1000, 1000, 1000, 400, 1, true, 30, 1.5⟩ ⟨90, 20, 10⟩ 1).distance
        ≠ 1 / ((30 : ℝ) / 100) / Real.tan (70.2 * Real.pi / 180 / 2) * 1.5 *
            max 1 ((400 : ℝ) / 400) := by
  have hpi := Real.pi_pos
  have hfov : (updateCameraForSize ⟨1000, 1000, 1000, 400, 1, true, 30, 1.5⟩
      ⟨90, 20, 10⟩ 1).fov = 70.2 := by
    rw [updateCameraForSize_fov _ _ 1 (by norm_num)]
    norm_num
  have htan90 : Real.tan ((90 : ℝ) * Real.pi / 180 / 2) = 1 := by
    rw [show (90 : ℝ) * Real.pi / 180 / 2 = Real.pi / 4 by ring]
    exact Real.tan_pi_div_four
  have hdist : (updateCameraForSize ⟨1000, 1000, 1000, 400, 1, true, 30, 1.5⟩
      ⟨90, 20, 10⟩ 1).distance = 5 := by
    rw [updateCameraForSize_distance _ _ 1 (by norm_num)]
    simp only
    rw [if_neg (by norm_num : ¬ (30 : ℝ) = 0), if_neg (by norm_num : ¬ (1.5 : ℝ) = 0),
      htan90]
    norm_num
  have ht0 : 0 < Real.tan ((70.2 : ℝ) * Real.pi / 180 / 2) :=
    Real.tan_pos_of_pos_of_lt_pi_div_two (by positivity) (by nlinarith)
  have ht1 : Real.tan ((70.2 : ℝ) * Real.pi / 180 / 2) < 1 := by
    have hq : Real.tan ((70.2 : ℝ) * Real.pi / 180 / 2) < Real.tan (Real.pi / 4) :=
      Real.strictMonoOn_tan
        (Set.mem_Ioo.mpr ⟨by nlinarith, by nlinarith⟩)
        (Set.mem_Ioo.mpr ⟨by nlinarith, by nlinarith⟩)
        (by nlinarith)
    rwa [Real.tan_pi_div_four] at hq
  refine ⟨hfov, hdist, ?_⟩
  rw [hdist]
  have hform : 1 / ((30 : ℝ) / 100) / Real.tan (70.2 * Real.pi / 180 / 2) * 1.5 *
      max 1 ((400 : ℝ) / 400) = 5 / Real.tan (70.2 * Real.pi / 180 / 2) := by
    rw [show max (1 : ℝ) ((400 : ℝ) / 400) = 1 by norm_num]
    field_simp
    ring
  rw [hform]
  have : (5 : ℝ) < 5 / Real.tan (70.2 * Real.pi / 180 / 2) := by
    rw [lt_div_iff ht0]
    nlinarith
  exact ne_of_lt this

/-- C8 amended — the camera distance is
`radius / (targetScreenFraction) / tan(previousFOV/2)` times the zoom rate
and the arena-size scale, computed from the camera's PREVIOUS field of
view; the FOV is recomputed afterwards as the clamped linear function
`clamp(70 + 0.2·radius, 60, 100)` and only affects subsequent calls; and
for a fixed previous FOV and zoom rate the resulting distance is a
non-decreasing function of the player radius. -/
theorem camera_distance_spec :
    (∀ (cfg : GameConfig) (cam : CameraState) (r : ℝ), 0 < r →
      (updateCameraForSize cfg cam r).distance =
        r / ((if cfg.maxScreenPercentage = 0 then 30 else cfg.maxScreenPercentage) / 100) /
          Real.tan (cam.fov * Real.pi / 180 / 2) *
          (if cfg.cameraZoomRate = 0 then 1.5 else cfg.cameraZoomRate) *
          max 1 (cfg.playableArea / 400) ∧
      (updateCameraForSize cfg cam r).fov = max 60 (min 100 (75 - 5 + r * 0.2))) ∧
    (∀ (cfg : GameConfig) (cam : CameraState) (r1 r2 : ℝ), 0 < r1 → r1 ≤ r2 →
      0 < Real.tan (cam.fov * Real.pi / 180 / 2) →
      0 < cfg.maxScreenPercentage → 0 < cfg.cameraZoomRate →
        (updateCameraForSize cfg cam r1).distance ≤
          (updateCameraForSize cfg cam r2).distance) := by
  constructor
  · intro cfg cam r hr
    exact ⟨updateCameraForSize_distance cfg cam r hr, updateCameraForSize_fov cfg cam r hr⟩
  · intro cfg cam r1 r2 hr1 hr12 htan hpct hzoom
    rw [updateCameraForSize_distance cfg cam r1 hr1,
      updateCameraForSize_distance cfg cam r2 (lt_of_lt_of_le hr1 hr12)]
    rw [if_neg (ne_of_gt hpct), if_neg (ne_of_gt hzoom)]
    have hA : (0 : ℝ) < cfg.maxScreenPercentage / 100 := by positivity
    have hS : (0 : ℝ) < max 1 (cfg.playableArea / 400) :=
      lt_of_lt_of_le one_pos (le_max_left _ _)
    gcongr

/-- Witness for the amended C8 at radius 1 against a 90° camera, including
monotonicity towards radius 2. -/
theorem camera_distance_spec_witness :
    (updateCameraForSize ⟨1000, 1000, 1000, 400, 1, true, 30, 1.5⟩ ⟨90, 20, 10⟩ 1).fov =
      max 60 (min 100 (75 - 5 + 1 * 0.2)) ∧
    (updateCameraForSize ⟨1000, 1000, 1000, 400, 1, true, 30, 1.5⟩ ⟨90, 20, 10⟩ 1).distance ≤
      (updateCameraForSize ⟨1000, 1000, 1000, 400, 1, true, 30, 1.5⟩ ⟨90, 20, 10⟩ 2).distance :=
  ⟨(camera_distance_spec.1 ⟨1000, 1000, 1000, 400, 1, true, 30, 1.5⟩ ⟨90, 20, 10⟩ 1
      (by norm_num)).2,
   camera_distance_spec.2 ⟨1000, 1000, 1000, 400, 1, true, 30, 1.5⟩ ⟨90, 20, 10⟩ 1 2
     (by norm_num) (by norm_num)
     (by rw [show (90 : ℝ) * Real.pi / 180 / 2 = Real.pi / 4 by ring,
           Real.tan_pi_div_four]
         norm_num)
     (by norm_num) (by norm_num)⟩

end
